import Mathlib

/-!
Shallow embedding of the METAR Lightworks firmware administration core
(files firmware/METARLightworks_App/AdminUI.h, AppTypes.h and
firmware/METARLightworks_Map/AdminUI.h, AppTypes.h).

HTTP request handlers are embedded as pure functions: the request
arguments (already extracted from the form body / query string), the
outcome of the credential check the server would report for the request
(authOk), and the outcome of the external persist routine (saveOk) are
explicit parameters; the handler returns the new configuration record,
the response it sends, and the list of external side effects it performs.
-/

/-! ## Arduino String primitives (trim, toUpperCase, toLowerCase, equalsIgnoreCase) -/

/-- Whitespace characters removed by Arduino String::trim (C isspace). -/
def isSpaceChar (c : Char) : Bool :=
  c = ' ' || c = '\t' || c = '\n' || c = '\x0b' || c = '\x0c' || c = '\r'

/-- Arduino String::trim: remove leading and trailing whitespace. -/
def arduinoTrim (s : String) : String :=
  String.mk (((s.data.dropWhile isSpaceChar).reverse.dropWhile isSpaceChar).reverse)

/-- ASCII toupper applied to one character (Arduino String::toUpperCase). -/
def upperChar (c : Char) : Char :=
  if 97 ≤ c.toNat ∧ c.toNat ≤ 122 then Char.ofNat (c.toNat - 32) else c

/-- ASCII tolower applied to one character (Arduino String::toLowerCase). -/
def lowerChar (c : Char) : Char :=
  if 65 ≤ c.toNat ∧ c.toNat ≤ 90 then Char.ofNat (c.toNat + 32) else c

/-- Arduino String::toUpperCase. -/
def upperStr (s : String) : String := String.mk (s.data.map upperChar)

/-- Arduino String::toLowerCase. -/
def lowerStr (s : String) : String := String.mk (s.data.map lowerChar)

/-- Arduino String::equalsIgnoreCase: equality after lowercasing both sides. -/
def equalsIgnoreCase (a b : String) : Bool := lowerStr a == lowerStr b

/-! ## Hardware variant and the GPIO safety policy -/

/-- Hardware variant: c3 is the reduced pin-count chip (isChipC3() true,
variant A of the spec), og the standard chip (variant B). -/
inductive Variant where
  | c3
  | og
deriving DecidableEq, Repr

/-- Conservative pin check by chip; AdminUI.h isSafeGpioForNeoPixel
(identical in both firmware variants). -/
def isSafeGpioForNeoPixel (v : Variant) (pin : Int) : Bool :=
  if pin < 0 then false
  else
    match v with
    | .c3 =>
      if pin > 21 then false
      else if pin = 18 ∨ pin = 19 then false
      else true
    | .og =>
      if 6 ≤ pin ∧ pin ≤ 11 then false
      else if 34 ≤ pin ∧ pin ≤ 39 then false
      else if pin = 0 ∨ pin = 2 ∨ pin = 12 ∨ pin = 15 then false
      else if pin = 1 ∨ pin = 3 then false
      else decide (pin ≤ 33)

/-! ## Responses and external side effects -/

/-- Response sent back on the request. challenge is the authentication
challenge issued by server.requestAuthentication(); page abbreviates a
rendered HTML page whose markup is glue and carries only its status code. -/
inductive Response where
  | challenge
  | sent (code : Nat) (body : String)
  | page (code : Nat)
deriving DecidableEq, Repr

/-- External side effects a handler can perform. -/
inductive Effect where
  | setColor (r g b : Nat)
  | clearLed
  | restart
  | saveAttempt
  | refreshNow
  | rebuildStrip
  | otaContact
  | otaInstall
deriving DecidableEq, Repr

/-- Outcome of running a handler: the configuration record after the call,
the response sent, and the external side effects performed in order. -/
structure HandlerResult (σ : Type) where
  cfg : σ
  resp : Response
  effects : List Effect
deriving DecidableEq, Repr

/-- Canonicalization applied to the submitted color order by
handleAdminLedSave: order.trim(); order.toUpperCase(). -/
def canonOrder (s : String) : String := upperStr (arduinoTrim s)

/-- Membership test on the canonicalized color order used by
handleAdminLedSave in both firmware variants. -/
def isValidOrderCanon (o : String) : Bool :=
  o == "RGB" || o == "RBG" || o == "GRB" || o == "GBR" || o == "BRG" || o == "BGR"

/-- The six admissible color-order tokens. -/
def sixOrders : List String := ["RGB", "RBG", "GRB", "GBR", "BRG", "BGR"]

/-! ## Single-strip (Lamp) firmware: METARLightworks_App -/

namespace App

/-- Configuration record of the single-strip firmware
(METARLightworks_App/AppTypes.h), with its compiled-in defaults. -/
structure AppConfig where
  device_ssid : String := "METARLightworks"
  avwx_token : String := ""
  wifi_ssid : String := ""
  wifi_pass : String := ""
  airport_code : String := "KTIX"
  brightness : Int := 100
  scheduleEnabled : Bool := false
  startHour : Int := 0
  startMinute : Int := 0
  endHour : Int := 23
  endMinute : Int := 59
  timezonePref : String := "UTC0"
  displayMode : Int := 0
  fpEnabled : Bool := false
  fpIcao : String := ""
  fpTail : String := ""
  otaCheckOnBoot : Bool := true
  otaAutoUpdate : Bool := false
  otaIntervalDays : Int := 7
  led_pin : Int := 5
  led_count : Int := 1
  led_order : String := "RGB"
deriving DecidableEq, Repr

/-- GET /admin: auth gate then the status page. -/
def handleAdminHome (authOk : Bool) (cfg : AppConfig) : HandlerResult AppConfig :=
  if !authOk then ⟨cfg, .challenge, []⟩
  else ⟨cfg, .page 200, []⟩

/-- GET /admin/led: auth gate then the form page. -/
def handleAdminLed (authOk : Bool) (cfg : AppConfig) : HandlerResult AppConfig :=
  if !authOk then ⟨cfg, .challenge, []⟩
  else ⟨cfg, .page 200, []⟩

/-- POST /admin/led/save (App AdminUI.h lines 151-182). pin and count are
the integers produced by String::toInt on the form fields. -/
def handleAdminLedSave (v : Variant) (authOk saveOk : Bool) (pin count : Int)
    (orderArg : String) (cfg : AppConfig) : HandlerResult AppConfig :=
  if !authOk then ⟨cfg, .challenge, []⟩
  else
    let order := canonOrder orderArg
    if !(isSafeGpioForNeoPixel v pin) then
      ⟨cfg, .sent 400 "Invalid/unsafe GPIO selected.", []⟩
    else if count < 1 ∨ count > 300 then
      ⟨cfg, .sent 400 "Invalid LED count.", []⟩
    else if !(isValidOrderCanon order) then
      ⟨cfg, .sent 400 "Invalid color order.", []⟩
    else
      let cfg2 := { cfg with led_pin := pin, led_count := count, led_order := order }
      if !saveOk then ⟨cfg2, .sent 500 "Save failed.", [.saveAttempt]⟩
      else ⟨cfg2, .sent 200 "Saved. Reboot required for LED changes.", [.saveAttempt]⟩

/-- GET /admin/led/test (App AdminUI.h lines 185-201). -/
def handleAdminLedTest (authOk : Bool) (cArg : String) (cfg : AppConfig) :
    HandlerResult AppConfig :=
  if !authOk then ⟨cfg, .challenge, []⟩
  else
    let c := lowerStr (arduinoTrim cArg)
    if c == "red" then ⟨cfg, .sent 200 "OK", [.setColor 255 0 0]⟩
    else if c == "green" then ⟨cfg, .sent 200 "OK", [.setColor 0 255 0]⟩
    else if c == "blue" then ⟨cfg, .sent 200 "OK", [.setColor 0 0 255]⟩
    else if c == "off" then ⟨cfg, .sent 200 "OK", [.clearLed]⟩
    else ⟨cfg, .sent 400 "Bad color. Use c=red|green|blue|off", []⟩

/-- GET /admin/reboot: auth gate, response, then restart. -/
def handleAdminReboot (authOk : Bool) (cfg : AppConfig) : HandlerResult AppConfig :=
  if !authOk then ⟨cfg, .challenge, []⟩
  else ⟨cfg, .sent 200 "Rebooting...", [.restart]⟩

end App

/-! ## Map firmware: METARLightworks_Map -/

namespace Map

/-- Configuration record of the map firmware
(METARLightworks_Map/AppTypes.h), with its compiled-in defaults. -/
structure AppConfig where
  device_ssid : String := "METARMapworks"
  wifi_ssid : String := ""
  wifi_pass : String := ""
  provisioned : Bool := false
  app_role : String := ""
  map_list : String := "VFR,MVFR,IFR,LIFR,SKIP"
  brightness : Int := 120
  led_pin : Int := 5
  led_count : Int := 1
  led_order : String := "GRB"
  otaCheckOnBoot : Bool := true
  otaAutoUpdate : Bool := false
  otaIntervalDays : Int := 7
deriving DecidableEq, Repr

/-- Map provisioning gate, the expression computed at the top of
handleRoot, handleSave and handleRefresh:
cfg.provisioned AND cfg.app_role.length() AND
cfg.app_role.equalsIgnoreCase("map"). -/
def isOperational (cfg : AppConfig) : Bool :=
  cfg.provisioned && (cfg.app_role.length != 0) && equalsIgnoreCase cfg.app_role "map"

/-- POST /save (Map AdminUI.h lines 173-187): provisioning gate, mutate
map_list and clamped brightness, persist, then refresh and redirect. -/
def handleSave (mapList : String) (brightnessArg : Int) (saveOk : Bool)
    (cfg : AppConfig) : HandlerResult AppConfig :=
  if !(isOperational cfg) then ⟨cfg, .sent 403 "Not provisioned", []⟩
  else
    let cfg2 := { cfg with map_list := mapList, brightness := brightnessArg }
    let cfg3 := if cfg2.brightness < 1 then { cfg2 with brightness := 1 } else cfg2
    let cfg4 := if cfg3.brightness > 255 then { cfg3 with brightness := 255 } else cfg3
    if !saveOk then ⟨cfg4, .sent 500 "Save failed", [.saveAttempt]⟩
    else ⟨cfg4, .sent 302 "Saved", [.saveAttempt, .refreshNow]⟩

/-- GET /refresh (Map AdminUI.h lines 189-194). -/
def handleRefresh (cfg : AppConfig) : HandlerResult AppConfig :=
  if !(isOperational cfg) then ⟨cfg, .sent 403 "Not provisioned", []⟩
  else ⟨cfg, .sent 200 "OK", [.refreshNow]⟩

/-- GET /reboot (Map AdminUI.h lines 196-200): sends the response and
restarts; the handler never consults the credential check. -/
def handleReboot (_authOk : Bool) (cfg : AppConfig) : HandlerResult AppConfig :=
  ⟨cfg, .sent 200 "Rebooting...", [.restart]⟩

/-- GET /ota/settings (Map AdminUI.h lines 217-228): normalizes the auto
flag, clamps days into [1,60], mutates the record, persists; the handler
never consults the credential check. -/
def handleOtaSettings (_authOk : Bool) (autoArg : String) (daysArg : Int)
    (saveOk : Bool) (cfg : AppConfig) : HandlerResult AppConfig :=
  let a := lowerStr (arduinoTrim autoArg)
  let days1 := if daysArg < 1 then 1 else daysArg
  let days2 := if days1 > 60 then 60 else days1
  let cfg2 := { cfg with otaAutoUpdate := a == "on", otaIntervalDays := days2 }
  if !saveOk then ⟨cfg2, .sent 500 "Save failed", [.saveAttempt]⟩
  else ⟨cfg2, .sent 200 "Saved", [.saveAttempt]⟩

/-- GET /admin (Map): auth gate then the status page. -/
def handleAdminHome (authOk : Bool) (cfg : AppConfig) : HandlerResult AppConfig :=
  if !authOk then ⟨cfg, .challenge, []⟩
  else ⟨cfg, .page 200, []⟩

/-- GET /admin/led (Map): auth gate then the form page. -/
def handleAdminLed (authOk : Bool) (cfg : AppConfig) : HandlerResult AppConfig :=
  if !authOk then ⟨cfg, .challenge, []⟩
  else ⟨cfg, .page 200, []⟩

/-- POST /admin/led/save (Map AdminUI.h lines 289-308): no count field in
this variant; led_count is derived from the token list elsewhere. -/
def handleAdminLedSave (v : Variant) (authOk saveOk : Bool) (pin : Int)
    (orderArg : String) (cfg : AppConfig) : HandlerResult AppConfig :=
  if !authOk then ⟨cfg, .challenge, []⟩
  else
    let order := canonOrder orderArg
    if !(isSafeGpioForNeoPixel v pin) then
      ⟨cfg, .sent 400 "Invalid/unsafe GPIO selected.", []⟩
    else if !(isValidOrderCanon order) then
      ⟨cfg, .sent 400 "Invalid color order.", []⟩
    else
      let cfg2 := { cfg with led_pin := pin, led_order := order }
      if !saveOk then ⟨cfg2, .sent 500 "Save failed.", [.saveAttempt]⟩
      else ⟨cfg2, .sent 200 "Saved.", [.saveAttempt, .rebuildStrip]⟩

/-- GET /admin/led/test (Map AdminUI.h lines 310-321). -/
def handleAdminLedTest (authOk : Bool) (cArg : String) (cfg : AppConfig) :
    HandlerResult AppConfig :=
  if !authOk then ⟨cfg, .challenge, []⟩
  else
    let c := lowerStr (arduinoTrim cArg)
    if c == "red" then ⟨cfg, .sent 200 "OK", [.setColor 255 0 0]⟩
    else if c == "green" then ⟨cfg, .sent 200 "OK", [.setColor 0 255 0]⟩
    else if c == "blue" then ⟨cfg, .sent 200 "OK", [.setColor 0 0 255]⟩
    else if c == "off" then ⟨cfg, .sent 200 "OK", [.clearLed]⟩
    else ⟨cfg, .sent 400 "Bad color. Use c=red|green|blue|off", []⟩

/-- GET /admin/reboot (Map): auth gate, response, then restart. -/
def handleAdminReboot (authOk : Bool) (cfg : AppConfig) : HandlerResult AppConfig :=
  if !authOk then ⟨cfg, .challenge, []⟩
  else ⟨cfg, .sent 200 "Rebooting...", [.restart]⟩

end Map

/-! ## OTA check / install surface of the Map firmware -/

/-- Observable OTA status shared between the .ino and the handlers:
otaUpdateAvailable, otaLastCheckMs, otaStatusLine. -/
structure OtaState where
  updateAvailable : Bool := false
  lastCheckMs : Nat := 0
  statusLine : String := "Idle"
deriving DecidableEq, Repr

/-- Outcome of the synchronous query performed by a check: the update
source answered with a newer asset, answered with no newer asset, or the
query failed. -/
inductive CheckOutcome where
  | error
  | notFound
  | found
deriving DecidableEq, Repr

/-- Modelled from the spec: otaCheckNow is declared extern in
Map/AdminUI.h and defined in the .ino, which is not part of the sources.
Per spec section 4.5 a check performs a synchronous query against the
update source, records a status message for each outcome, sets the
available flag from the outcome, and updates lastCheckTimestamp on every
completed check regardless of outcome; it returns false exactly on a
network/parse error. -/
def otaCheckNow (outcome : CheckOutcome) (now : Nat) (st : OtaState) :
    Bool × OtaState :=
  match outcome with
  | .error => (false, { st with lastCheckMs := now, statusLine := "Check failed" })
  | .notFound =>
    (true, { st with updateAvailable := false, lastCheckMs := now,
                     statusLine := "Up to date" })
  | .found =>
    (true, { st with updateAvailable := true, lastCheckMs := now,
                     statusLine := "Update available" })

/-- Outcome of running an OTA handler: OTA status after the call, the
response sent, and the external side effects performed in order. -/
structure OtaResult where
  ota : OtaState
  resp : Response
  effects : List Effect
deriving DecidableEq, Repr

namespace Map

/-- GET /ota/check (Map AdminUI.h lines 203-206); never consults the
credential check. -/
def handleOtaCheck (_authOk : Bool) (outcome : CheckOutcome) (now : Nat)
    (st : OtaState) : OtaResult :=
  let r := otaCheckNow outcome now st
  ⟨r.2, .sent (if r.1 then 200 else 500) r.2.statusLine, [.otaContact]⟩

/-- GET /ota/install (Map AdminUI.h lines 208-215): always performs a
fresh check first, then installs only if that check reported an update;
never consults the credential check. -/
def handleOtaInstall (_authOk : Bool) (outcome : CheckOutcome) (now : Nat)
    (st : OtaState) : OtaResult :=
  let r := otaCheckNow outcome now st
  if !r.1 then ⟨r.2, .sent 500 r.2.statusLine, [.otaContact]⟩
  else if !r.2.updateAvailable then
    ⟨r.2, .sent 200 "No update available", [.otaContact]⟩
  else
    ⟨r.2, .sent 200 "Installing update... device will reboot.",
      [.otaContact, .otaInstall]⟩

end Map

/-! ## Character-case lemmas -/

/-- Valid code points below the surrogate range round-trip through
Char.ofNat. -/
theorem char_toNat_ofNat {n : Nat} (h : n < 55296) : (Char.ofNat n).toNat = n := by
  rw [Char.ofNat, dif_pos (Or.inl h)]
  rfl

/-- Characters with equal code points are equal. -/
theorem char_eq_of_toNat_eq {a b : Char} (h : a.toNat = b.toNat) : a = b := by
  rw [← Char.ofNat_toNat a, ← Char.ofNat_toNat b, h]

/-- Solving upperChar c = U for an uppercase letter U with lowercase
counterpart L. -/
theorem upperChar_eq_iff {c U L : Char} (h1 : 65 ≤ U.toNat) (h2 : U.toNat ≤ 90)
    (hL : L.toNat = U.toNat + 32) : upperChar c = U ↔ c = U ∨ c = L := by
  unfold upperChar
  by_cases h : 97 ≤ c.toNat ∧ c.toNat ≤ 122
  · rw [if_pos h]
    constructor
    · intro he
      have hn : (Char.ofNat (c.toNat - 32)).toNat = U.toNat := by rw [he]
      rw [char_toNat_ofNat (by omega)] at hn
      exact Or.inr (char_eq_of_toNat_eq (by omega))
    · rintro (he | he)
      · subst he; exfalso; omega
      · subst he
        apply char_eq_of_toNat_eq
        rw [char_toNat_ofNat (by omega)]
        omega
  · rw [if_neg h]
    constructor
    · exact Or.inl
    · rintro (he | he)
      · exact he
      · subst he; exact absurd ⟨by omega, by omega⟩ h

/-- Solving lowerChar c = L for an uppercase letter U with lowercase
counterpart L. -/
theorem lowerChar_eq_iff {c U L : Char} (h1 : 65 ≤ U.toNat) (h2 : U.toNat ≤ 90)
    (hL : L.toNat = U.toNat + 32) : lowerChar c = L ↔ c = U ∨ c = L := by
  unfold lowerChar
  by_cases h : 65 ≤ c.toNat ∧ c.toNat ≤ 90
  · rw [if_pos h]
    constructor
    · intro he
      have hn : (Char.ofNat (c.toNat + 32)).toNat = L.toNat := by rw [he]
      rw [char_toNat_ofNat (by omega)] at hn
      exact Or.inl (char_eq_of_toNat_eq (by omega))
    · rintro (he | he)
      · subst he
        apply char_eq_of_toNat_eq
        rw [char_toNat_ofNat (by omega)]
        omega
      · subst he; exfalso; omega
  · rw [if_neg h]
    constructor
    · exact Or.inr
    · rintro (he | he)
      · subst he; exact absurd ⟨h1, h2⟩ h
      · exact he

/-- The uppercase and lowercase images of a character agree on a
case-pair target. -/
theorem upperChar_iff_lowerChar {c U L : Char} (h1 : 65 ≤ U.toNat)
    (h2 : U.toNat ≤ 90) (hL : L.toNat = U.toNat + 32) :
    upperChar c = U ↔ lowerChar c = L := by
  rw [upperChar_eq_iff h1 h2 hL, lowerChar_eq_iff h1 h2 hL]

/-- Relation pairing an uppercase ASCII letter with its lowercase form. -/
def CasePair (U L : Char) : Prop :=
  (65 ≤ U.toNat ∧ U.toNat ≤ 90) ∧ L.toNat = U.toNat + 32

/-- Mapping upperChar over a list hits an all-uppercase target iff
mapping lowerChar hits the corresponding all-lowercase target. -/
theorem map_upper_eq_iff_map_lower {us ls : List Char}
    (h : List.Forall₂ CasePair us ls) :
    ∀ l : List Char, l.map upperChar = us ↔ l.map lowerChar = ls := by
  induction h with
  | nil => intro l; simp
  | cons hUL _ ih =>
    intro l
    cases l with
    | nil => simp
    | cons c l =>
      simp only [List.map_cons, List.cons.injEq]
      rw [upperChar_iff_lowerChar hUL.1.1 hUL.1.2 hUL.2, ih l]

/-- String version of map_upper_eq_iff_map_lower. -/
theorem upperStr_eq_iff_lowerStr (s U L : String)
    (h : List.Forall₂ CasePair U.data L.data) :
    upperStr s = U ↔ lowerStr s = L := by
  unfold upperStr lowerStr
  rw [String.ext_iff, String.ext_iff]
  exact map_upper_eq_iff_map_lower h s.data

/-- CasePair holds for R and r. -/
theorem casePair_R : CasePair 'R' 'r' := by unfold CasePair; decide

/-- CasePair holds for G and g. -/
theorem casePair_G : CasePair 'G' 'g' := by unfold CasePair; decide

/-- CasePair holds for B and b. -/
theorem casePair_B : CasePair 'B' 'b' := by unfold CasePair; decide

/-! ## Claim theorems -/

/-- C5: for every integer p the GPIO safety predicate on variant A (the
reduced pin-count chip) returns false exactly when p is negative, above
21, or one of 18 and 19, and on variant B (the standard chip) returns
false exactly when p is negative, in [6,11], in [34,39], one of
0,1,2,3,12,15, or above 33; in every other case it returns true. -/
theorem gpio_safety_characterization (p : Int) :
    (isSafeGpioForNeoPixel .c3 p = false ↔ p < 0 ∨ p > 21 ∨ p = 18 ∨ p = 19) ∧
    (isSafeGpioForNeoPixel .og p = false ↔
      p < 0 ∨ (6 ≤ p ∧ p ≤ 11) ∨ (34 ≤ p ∧ p ≤ 39) ∨
      p = 0 ∨ p = 1 ∨ p = 2 ∨ p = 3 ∨ p = 12 ∨ p = 15 ∨ p > 33) := by
  constructor <;>
    · simp only [isSafeGpioForNeoPixel]
      split_ifs <;> simp_all <;> omega

/-- C4: if any field of a submitted admin LED save set fails its
validation rule (unsafe pin, out-of-range count, or invalid color order),
the request is answered 400, the live configuration record is left
unchanged in every field, and no persist is attempted. -/
theorem ledSave_validation_atomic (v : Variant) (saveOk : Bool)
    (pin count : Int) (order : String) (cfg : App.AppConfig)
    (hbad : isSafeGpioForNeoPixel v pin = false ∨ count < 1 ∨ count > 300 ∨
      isValidOrderCanon (canonOrder order) = false) :
    (∃ msg, (App.handleAdminLedSave v true saveOk pin count order cfg).resp =
      Response.sent 400 msg) ∧
    (App.handleAdminLedSave v true saveOk pin count order cfg).cfg = cfg ∧
    (App.handleAdminLedSave v true saveOk pin count order cfg).effects = [] := by
  simp only [App.handleAdminLedSave]
  split_ifs with h0 h1 h2 h3 <;>
    first
      | exact absurd h0 (by decide)
      | exact ⟨⟨_, rfl⟩, rfl, rfl⟩
      | (exfalso; rcases hbad with h | h | h | h <;> simp_all)

/-- Witness for C4: pin 2 is a strapping pin on the standard chip, so a
save of pin 2 with a good count and order is answered 400 and applies
nothing. -/
theorem ledSave_validation_atomic_witness :
    (isSafeGpioForNeoPixel .og 2 = false ∨ (10 : Int) < 1 ∨ (10 : Int) > 300 ∨
      isValidOrderCanon (canonOrder "RGB") = false) ∧
    ((∃ msg, (App.handleAdminLedSave .og true true 2 10 "RGB" {}).resp =
      Response.sent 400 msg) ∧
     (App.handleAdminLedSave .og true true 2 10 "RGB" {}).cfg = {} ∧
     (App.handleAdminLedSave .og true true 2 10 "RGB" {}).effects = []) :=
  ⟨Or.inl (by decide),
   ledSave_validation_atomic .og true 2 10 "RGB" {} (Or.inl (by decide))⟩

/-- C8: a submitted count outside [1,300] is answered 400 with no persist
attempt and no change to the record (and, when the pin is safe, with the
count-range error specifically); a count inside [1,300] passes the count
check, reaching the commit that stores it. -/
theorem ledSave_count_range (v : Variant) (saveOk : Bool) (pin count : Int)
    (order : String) (cfg : App.AppConfig) :
    ((count < 1 ∨ count > 300) →
      (∃ msg, (App.handleAdminLedSave v true saveOk pin count order cfg).resp =
        Response.sent 400 msg) ∧
      (App.handleAdminLedSave v true saveOk pin count order cfg).cfg = cfg ∧
      (App.handleAdminLedSave v true saveOk pin count order cfg).effects = [] ∧
      (isSafeGpioForNeoPixel v pin = true →
        (App.handleAdminLedSave v true saveOk pin count order cfg).resp =
          Response.sent 400 "Invalid LED count.")) ∧
    (1 ≤ count → count ≤ 300 → isSafeGpioForNeoPixel v pin = true →
      isValidOrderCanon (canonOrder order) = true →
      (App.handleAdminLedSave v true saveOk pin count order cfg).cfg.led_count =
        count) := by
  constructor
  · intro hc
    simp only [App.handleAdminLedSave]
    split_ifs with h0 h1 <;>
      first
        | exact absurd h0 (by decide)
        | exact ⟨⟨_, rfl⟩, rfl, rfl, fun hs => by simp_all⟩
  · intro hc1 hc2 hs ho
    simp only [App.handleAdminLedSave]
    split_ifs with h0 h1 h2 h3 <;> first
      | exact absurd h0 (by decide)
      | rfl
      | (exfalso; rcases h2 with h | h <;> omega)
      | simp_all

/-- Witness for C8: count 301 on a safe pin with a valid order is answered
with the count-range 400; count 10 is stored. -/
theorem ledSave_count_range_witness :
    (((301 : Int) < 1 ∨ (301 : Int) > 300) ∧
     (∃ msg, (App.handleAdminLedSave .og true true 4 301 "RGB" {}).resp =
       Response.sent 400 msg) ∧
     (App.handleAdminLedSave .og true true 4 301 "RGB" {}).cfg = {} ∧
     (App.handleAdminLedSave .og true true 4 301 "RGB" {}).effects = [] ∧
     (App.handleAdminLedSave .og true true 4 301 "RGB" {}).resp =
       Response.sent 400 "Invalid LED count.") ∧
    (App.handleAdminLedSave .og true true 4 10 "RGB" {}).cfg.led_count = 10 := by
  have h1 := (ledSave_count_range .og true 4 301 "RGB" {}).1 (Or.inr (by decide))
  have h2 := (ledSave_count_range .og true 4 10 "RGB" {}).2 (by decide) (by decide)
    (by decide) (by decide)
  exact ⟨⟨Or.inr (by decide), h1.1, h1.2.1, h1.2.2.1, h1.2.2.2 (by decide)⟩, h2⟩

/-- C1 counterexample: a fully valid save whose persist step fails is
answered 500, but the live in-memory record is not left unchanged: the
handler mutates the record before calling saveConfig and does not roll it
back, so led_pin has moved from its prior value 5 to the submitted 4. -/
theorem ledSave_persist_failure_mutates :
    (App.handleAdminLedSave .og true false 4 10 "RGB" {}).resp =
      Response.sent 500 "Save failed." ∧
    ({} : App.AppConfig).led_pin = 5 ∧
    (App.handleAdminLedSave .og true false 4 10 "RGB" {}).cfg.led_pin = 4 ∧
    (App.handleAdminLedSave .og true false 4 10 "RGB" {}).cfg ≠
      ({} : App.AppConfig) := by decide

/-- C1 amended: when every submitted field passes validation and the
persist step fails, the operation is answered with the 500 error, exactly
one persist attempt was made, and the live record holds the newly
validated values (pin, count, canonicalized order) rather than its prior
value: the failed persist is not rolled back in memory, while the prior
persisted copy stays on storage untouched by the failed write. -/
theorem ledSave_persist_failure_behavior (v : Variant) (pin count : Int)
    (order : String) (cfg : App.AppConfig)
    (hpin : isSafeGpioForNeoPixel v pin = true)
    (hc1 : 1 ≤ count) (hc2 : count ≤ 300)
    (hord : isValidOrderCanon (canonOrder order) = true) :
    (App.handleAdminLedSave v true false pin count order cfg).resp =
      Response.sent 500 "Save failed." ∧
    (App.handleAdminLedSave v true false pin count order cfg).cfg =
      { cfg with led_pin := pin, led_count := count, led_order := canonOrder order } ∧
    (App.handleAdminLedSave v true false pin count order cfg).effects =
      [Effect.saveAttempt] := by
  simp only [App.handleAdminLedSave]
  split_ifs with h0 h1 h2 h3 <;> first
    | exact absurd h0 (by decide)
    | exact ⟨rfl, rfl, rfl⟩
    | (exfalso; rcases h2 with h | h <;> omega)
    | simp_all

/-- An uppercase image equals RGB iff the lowercase image equals rgb. -/
theorem upperStr_eq_rgb (s : String) : upperStr s = "RGB" ↔ lowerStr s = "rgb" :=
  upperStr_eq_iff_lowerStr s "RGB" "rgb"
    (.cons casePair_R (.cons casePair_G (.cons casePair_B .nil)))

/-- An uppercase image equals RBG iff the lowercase image equals rbg. -/
theorem upperStr_eq_rbg (s : String) : upperStr s = "RBG" ↔ lowerStr s = "rbg" :=
  upperStr_eq_iff_lowerStr s "RBG" "rbg"
    (.cons casePair_R (.cons casePair_B (.cons casePair_G .nil)))

/-- An uppercase image equals GRB iff the lowercase image equals grb. -/
theorem upperStr_eq_grb (s : String) : upperStr s = "GRB" ↔ lowerStr s = "grb" :=
  upperStr_eq_iff_lowerStr s "GRB" "grb"
    (.cons casePair_G (.cons casePair_R (.cons casePair_B .nil)))

/-- An uppercase image equals GBR iff the lowercase image equals gbr. -/
theorem upperStr_eq_gbr (s : String) : upperStr s = "GBR" ↔ lowerStr s = "gbr" :=
  upperStr_eq_iff_lowerStr s "GBR" "gbr"
    (.cons casePair_G (.cons casePair_B (.cons casePair_R .nil)))

/-- An uppercase image equals BRG iff the lowercase image equals brg. -/
theorem upperStr_eq_brg (s : String) : upperStr s = "BRG" ↔ lowerStr s = "brg" :=
  upperStr_eq_iff_lowerStr s "BRG" "brg"
    (.cons casePair_B (.cons casePair_R (.cons casePair_G .nil)))

/-- An uppercase image equals BGR iff the lowercase image equals bgr. -/
theorem upperStr_eq_bgr (s : String) : upperStr s = "BGR" ↔ lowerStr s = "bgr" :=
  upperStr_eq_iff_lowerStr s "BGR" "bgr"
    (.cons casePair_B (.cons casePair_G (.cons casePair_R .nil)))

/-- The canonicalized membership check accepts a string iff its trimmed
form is, case-insensitively, one of the six color-order tokens. -/
theorem orderAccepted_iff_case_insensitive_member (s : String) :
    isValidOrderCanon (canonOrder s) = true ↔
      sixOrders.any (fun t => equalsIgnoreCase (arduinoTrim s) t) = true := by
  have e1 : lowerStr "RGB" = "rgb" := by decide
  have e2 : lowerStr "RBG" = "rbg" := by decide
  have e3 : lowerStr "GRB" = "grb" := by decide
  have e4 : lowerStr "GBR" = "gbr" := by decide
  have e5 : lowerStr "BRG" = "brg" := by decide
  have e6 : lowerStr "BGR" = "bgr" := by decide
  simp only [isValidOrderCanon, canonOrder, sixOrders, List.any_cons, List.any_nil,
    Bool.or_eq_true, Bool.or_false, beq_iff_eq, equalsIgnoreCase,
    e1, e2, e3, e4, e5, e6]
  rw [upperStr_eq_rgb, upperStr_eq_rbg, upperStr_eq_grb, upperStr_eq_gbr,
    upperStr_eq_brg, upperStr_eq_bgr]
  tauto

/-- Witness for C1's amended theorem at pin 4, count 10, order RGB. -/
theorem ledSave_persist_failure_behavior_witness :
    (isSafeGpioForNeoPixel .og 4 = true ∧ (1 : Int) ≤ 10 ∧ (10 : Int) ≤ 300 ∧
      isValidOrderCanon (canonOrder "RGB") = true) ∧
    ((App.handleAdminLedSave .og true false 4 10 "RGB" {}).resp =
      Response.sent 500 "Save failed." ∧
     (App.handleAdminLedSave .og true false 4 10 "RGB" {}).cfg =
      { ({} : App.AppConfig) with led_pin := 4, led_count := 10, led_order := canonOrder "RGB" } ∧
     (App.handleAdminLedSave .og true false 4 10 "RGB" {}).effects =
      [Effect.saveAttempt]) :=
  ⟨⟨by decide, by decide, by decide, by decide⟩,
   ledSave_persist_failure_behavior .og 4 10 "RGB" {} (by decide) (by decide)
     (by decide) (by decide)⟩

/-- C7 counterexample: the input " RGB" (leading whitespace) is not,
case-insensitively, one of the six permutations, yet color-order
validation accepts it, because the handler trims before checking; the
claim that every other input string is rejected with a 400 is therefore
false at this input. -/
theorem colorOrder_whitespace_accepted :
    isValidOrderCanon (canonOrder " RGB") = true ∧
    sixOrders.any (fun t => equalsIgnoreCase " RGB" t) = false ∧
    (App.handleAdminLedSave .og true true 4 10 " RGB" {}).resp =
      Response.sent 200 "Saved. Reboot required for LED changes." := by decide

/-- C7 amended: color-order validation accepts exactly the strings whose
whitespace-trimmed form is, case-insensitively, one of the six
permutations of R, G and B; an accepted submission stores the trimmed,
uppercased canonical token, and a submission failing the check (with pin
and count valid) is answered 400 with the record unchanged. -/
theorem colorOrder_validation (s : String) (v : Variant) (saveOk : Bool)
    (pin count : Int) (cfg : App.AppConfig) :
    (isValidOrderCanon (canonOrder s) = true ↔
      sixOrders.any (fun t => equalsIgnoreCase (arduinoTrim s) t) = true) ∧
    (isValidOrderCanon (canonOrder s) = true → canonOrder s ∈ sixOrders) ∧
    (isValidOrderCanon (canonOrder s) = false →
      isSafeGpioForNeoPixel v pin = true → 1 ≤ count → count ≤ 300 →
      (App.handleAdminLedSave v true saveOk pin count s cfg).resp =
        Response.sent 400 "Invalid color order." ∧
      (App.handleAdminLedSave v true saveOk pin count s cfg).cfg = cfg ∧
      (App.handleAdminLedSave v true saveOk pin count s cfg).effects = []) ∧
    (isValidOrderCanon (canonOrder s) = true →
      isSafeGpioForNeoPixel v pin = true → 1 ≤ count → count ≤ 300 →
      (App.handleAdminLedSave v true saveOk pin count s cfg).cfg.led_order =
        canonOrder s) := by
  refine ⟨orderAccepted_iff_case_insensitive_member s, ?_, ?_, ?_⟩
  · intro h
    simp only [isValidOrderCanon, Bool.or_eq_true, beq_iff_eq] at h
    simp only [sixOrders, List.mem_cons, List.not_mem_nil, or_false]
    tauto
  · intro ho hs hc1 hc2
    simp only [App.handleAdminLedSave]
    split_ifs with h0 h1 h2 h3 <;> first
      | exact absurd h0 (by decide)
      | exact ⟨rfl, rfl, rfl⟩
      | (exfalso; rcases h2 with h | h <;> omega)
      | simp_all
  · intro ho hs hc1 hc2
    simp only [App.handleAdminLedSave]
    split_ifs with h0 h1 h2 h3 <;> first
      | exact absurd h0 (by decide)
      | rfl
      | (exfalso; rcases h2 with h | h <;> omega)
      | simp_all

/-- Witness for C7's amended theorem at the input " rgb", accepted and
canonicalized to RGB, and visible through a full save. -/
theorem colorOrder_validation_witness :
    (isValidOrderCanon (canonOrder " rgb") = true ↔
      sixOrders.any (fun t => equalsIgnoreCase (arduinoTrim " rgb") t) = true) ∧
    canonOrder " rgb" ∈ sixOrders ∧
    (App.handleAdminLedSave .og true true 4 10 " rgb" {}).cfg.led_order =
      canonOrder " rgb" :=
  ⟨(colorOrder_validation " rgb" .og true 4 10 {}).1,
   (colorOrder_validation " rgb" .og true 4 10 {}).2.1 (by decide),
   (colorOrder_validation " rgb" .og true 4 10 {}).2.2.2 (by decide) (by decide)
     (by decide) (by decide)⟩

/-- The role string passing the case-insensitive comparison with map has
three characters, so its length check cannot fail. -/
theorem length_ne_zero_of_eqIgnoreCase_map {r : String}
    (h : equalsIgnoreCase r "map" = true) : (r.length != 0) = true := by
  unfold equalsIgnoreCase at h
  have hd : lowerStr r = "map" := by
    have hmap : lowerStr "map" = "map" := by decide
    exact (beq_iff_eq.mp h).trans hmap
  have hdata : r.data.map lowerChar = "map".data := by
    have := String.ext_iff.mp hd
    simpa [lowerStr] using this
  have hlen : r.data.length = 3 := by
    have := congrArg List.length hdata
    simpa using this
  show (r.data.length != 0) = true
  rw [hlen]
  decide

/-- C6: the provisioning gate holds exactly when the provisioned flag is
set and the role equals the expected role token map, compared
case-insensitively (the length test in the source is redundant); when the
gate fails, the device-function save route answers 403 Not provisioned
and mutates nothing, while the admin surface stays reachable for an
authenticated caller regardless of provisioning. -/
theorem provisioning_gate :
    (∀ cfg : Map.AppConfig, Map.isOperational cfg =
      (cfg.provisioned && equalsIgnoreCase cfg.app_role "map")) ∧
    (∀ (mapList : String) (brightnessArg : Int) (saveOk : Bool)
      (cfg : Map.AppConfig), Map.isOperational cfg = false →
      Map.handleSave mapList brightnessArg saveOk cfg =
        ⟨cfg, Response.sent 403 "Not provisioned", []⟩) ∧
    (∀ cfg : Map.AppConfig, (Map.handleAdminHome true cfg).resp =
      Response.page 200) := by
  refine ⟨?_, ?_, fun _ => rfl⟩
  · intro cfg
    unfold Map.isOperational
    cases hp : cfg.provisioned <;> simp only [Bool.false_and, Bool.true_and]
    cases he : equalsIgnoreCase cfg.app_role "map"
    · simp
    · simp [length_ne_zero_of_eqIgnoreCase_map he]
  · intro mapList brightnessArg saveOk cfg hgate
    simp [Map.handleSave, hgate]

/-- Witness for C6 at the factory-default record: provisioned is false and
the role is empty, so the gate fails, the save route answers 403 without
mutating, and the admin home page still renders for an authenticated
caller. -/
theorem provisioning_gate_witness :
    Map.isOperational {} = false ∧
    Map.handleSave "KJFK,KSFO" 100 true {} =
      ⟨{}, Response.sent 403 "Not provisioned", []⟩ ∧
    (Map.handleAdminHome true {}).resp = Response.page 200 :=
  ⟨by decide, provisioning_gate.2.1 "KJFK,KSFO" 100 true {} (by decide),
   provisioning_gate.2.2 {}⟩

/-- C9: the actuator test maps the normalized symbol red to the exact call
setLEDColor(255,0,0), green to (0,255,0), blue to (0,0,255) and off to the
clear command, answering 200 OK; every other symbol is answered 400 with
no actuator call made. -/
theorem ledTest_symbol_mapping (cArg : String) (cfg : App.AppConfig) :
    (lowerStr (arduinoTrim cArg) = "red" →
      App.handleAdminLedTest true cArg cfg =
        ⟨cfg, Response.sent 200 "OK", [Effect.setColor 255 0 0]⟩) ∧
    (lowerStr (arduinoTrim cArg) = "green" →
      App.handleAdminLedTest true cArg cfg =
        ⟨cfg, Response.sent 200 "OK", [Effect.setColor 0 255 0]⟩) ∧
    (lowerStr (arduinoTrim cArg) = "blue" →
      App.handleAdminLedTest true cArg cfg =
        ⟨cfg, Response.sent 200 "OK", [Effect.setColor 0 0 255]⟩) ∧
    (lowerStr (arduinoTrim cArg) = "off" →
      App.handleAdminLedTest true cArg cfg =
        ⟨cfg, Response.sent 200 "OK", [Effect.clearLed]⟩) ∧
    (lowerStr (arduinoTrim cArg) ≠ "red" →
      lowerStr (arduinoTrim cArg) ≠ "green" →
      lowerStr (arduinoTrim cArg) ≠ "blue" →
      lowerStr (arduinoTrim cArg) ≠ "off" →
      App.handleAdminLedTest true cArg cfg =
        ⟨cfg, Response.sent 400 "Bad color. Use c=red|green|blue|off", []⟩) := by
  refine ⟨?_, ?_, ?_, ?_, ?_⟩ <;> intro h <;> simp [App.handleAdminLedTest, h]
  intro h2 h3 h4
  simp [h, h2, h3, h4]

/-- Witness for C9 at the inputs red and purple. -/
theorem ledTest_symbol_mapping_witness :
    lowerStr (arduinoTrim "red") = "red" ∧
    App.handleAdminLedTest true "red" {} =
      ⟨{}, Response.sent 200 "OK", [Effect.setColor 255 0 0]⟩ ∧
    App.handleAdminLedTest true "purple" {} =
      ⟨{}, Response.sent 400 "Bad color. Use c=red|green|blue|off", []⟩ :=
  ⟨by decide, (ledTest_symbol_mapping "red" {}).1 (by decide),
   (ledTest_symbol_mapping "purple" {}).2.2.2.2 (by decide) (by decide)
     (by decide) (by decide)⟩

/-- C10: the OTA settings operation never rejects its inputs: for every
auto string and days integer it stores the days value clamped into [1,60]
and enables auto-update exactly when the trimmed, lowercased auto argument
equals on; after every call the interval is within [1,60], and the only
failure outcome is the persist error. -/
theorem otaSettings_total (authOk : Bool) (autoArg : String) (daysArg : Int)
    (saveOk : Bool) (cfg : Map.AppConfig) :
    1 ≤ (Map.handleOtaSettings authOk autoArg daysArg saveOk cfg).cfg.otaIntervalDays ∧
    (Map.handleOtaSettings authOk autoArg daysArg saveOk cfg).cfg.otaIntervalDays ≤ 60 ∧
    (Map.handleOtaSettings authOk autoArg daysArg saveOk cfg).cfg.otaIntervalDays =
      (if daysArg < 1 then 1 else if daysArg > 60 then 60 else daysArg) ∧
    ((Map.handleOtaSettings authOk autoArg daysArg saveOk cfg).cfg.otaAutoUpdate = true ↔
      lowerStr (arduinoTrim autoArg) = "on") ∧
    (Map.handleOtaSettings authOk autoArg daysArg saveOk cfg).resp =
      (if saveOk then Response.sent 200 "Saved" else Response.sent 500 "Save failed") ∧
    (Map.handleOtaSettings authOk autoArg daysArg saveOk cfg).effects =
      [Effect.saveAttempt] := by
  simp only [Map.handleOtaSettings]
  split_ifs with h1 h2 h3 h4 h5 <;> dsimp only <;>
    refine ⟨by omega, by omega, by omega, by simp [beq_iff_eq], by simp_all, rfl⟩

/-- C2 counterexample: privileged side effects occur with the credential
check failed and no challenge issued: the Map firmware's OTA settings
route persists a configuration change, its reboot route restarts the
device, and its OTA install route contacts the update source and installs,
all on a request whose credentials would not authenticate. -/
theorem unauthenticated_privileged_side_effects :
    (Map.handleOtaSettings false "on" 5 true {}).cfg.otaAutoUpdate = true ∧
    (Map.handleOtaSettings false "on" 5 true {}).effects = [Effect.saveAttempt] ∧
    (Map.handleOtaSettings false "on" 5 true {}).resp = Response.sent 200 "Saved" ∧
    (Map.handleReboot false {}).effects = [Effect.restart] ∧
    (Map.handleReboot false {}).resp = Response.sent 200 "Rebooting..." ∧
    (Map.handleOtaInstall false .found 100 {}).effects =
      [Effect.otaContact, Effect.otaInstall] := by decide

/-- C2 amended: every handler of the /admin surface, in both firmware
variants (status page, LED form, LED save, LED test, admin reboot),
performs no side effect and leaves the record unchanged unless the
credential check succeeded on that call, answering a failed check with the
authentication challenge; the Map firmware's /reboot, /ota/check,
/ota/install and /ota/settings routes, by contrast, run without any
credential check (see the counterexample). -/
theorem admin_routes_guarded :
    (∀ cfg, App.handleAdminHome false cfg = ⟨cfg, Response.challenge, []⟩) ∧
    (∀ cfg, App.handleAdminLed false cfg = ⟨cfg, Response.challenge, []⟩) ∧
    (∀ v saveOk pin count order cfg,
      App.handleAdminLedSave v false saveOk pin count order cfg =
        ⟨cfg, Response.challenge, []⟩) ∧
    (∀ c cfg, App.handleAdminLedTest false c cfg = ⟨cfg, Response.challenge, []⟩) ∧
    (∀ cfg, App.handleAdminReboot false cfg = ⟨cfg, Response.challenge, []⟩) ∧
    (∀ cfg, Map.handleAdminHome false cfg = ⟨cfg, Response.challenge, []⟩) ∧
    (∀ cfg, Map.handleAdminLed false cfg = ⟨cfg, Response.challenge, []⟩) ∧
    (∀ v saveOk pin order cfg,
      Map.handleAdminLedSave v false saveOk pin order cfg =
        ⟨cfg, Response.challenge, []⟩) ∧
    (∀ c cfg, Map.handleAdminLedTest false c cfg = ⟨cfg, Response.challenge, []⟩) ∧
    (∀ cfg, Map.handleAdminReboot false cfg = ⟨cfg, Response.challenge, []⟩) :=
  ⟨fun _ => rfl, fun _ => rfl, fun _ _ _ _ _ _ => rfl, fun _ _ => rfl, fun _ => rfl,
   fun _ => rfl, fun _ => rfl, fun _ _ _ _ _ => rfl, fun _ _ => rfl, fun _ => rfl⟩

/-- C3 counterexample: an install request with no update pending (no prior
check found one) is indeed answered No update available and installs
nothing, but it does contact the update source (a fresh check runs first)
and it does change lastCheckTimestamp, here from 0 to 100. -/
theorem ota_install_rechecks_and_updates_timestamp :
    ({} : OtaState).updateAvailable = false ∧
    ({} : OtaState).lastCheckMs = 0 ∧
    (Map.handleOtaInstall false .notFound 100 {}).resp =
      Response.sent 200 "No update available" ∧
    Effect.otaInstall ∉ (Map.handleOtaInstall false .notFound 100 {}).effects ∧
    Effect.otaContact ∈ (Map.handleOtaInstall false .notFound 100 {}).effects ∧
    (Map.handleOtaInstall false .notFound 100 {}).ota.lastCheckMs = 100 := by decide

/-- C3 amended: an install request always performs a fresh check first,
contacting the update source and setting lastCheckTimestamp to the time of
that check; if the check fails it answers 500 with the status line and
installs nothing; if the check finds no update it answers No update
available and installs nothing; installation proceeds only when the fresh
check reports an update. -/
theorem ota_install_behavior (authOk : Bool) (outcome : CheckOutcome)
    (now : Nat) (st : OtaState) :
    Effect.otaContact ∈ (Map.handleOtaInstall authOk outcome now st).effects ∧
    (Map.handleOtaInstall authOk outcome now st).ota.lastCheckMs = now ∧
    (outcome = CheckOutcome.error →
      (Map.handleOtaInstall authOk outcome now st).resp =
        Response.sent 500 (Map.handleOtaInstall authOk outcome now st).ota.statusLine ∧
      Effect.otaInstall ∉ (Map.handleOtaInstall authOk outcome now st).effects) ∧
    (outcome = CheckOutcome.notFound →
      (Map.handleOtaInstall authOk outcome now st).resp =
        Response.sent 200 "No update available" ∧
      Effect.otaInstall ∉ (Map.handleOtaInstall authOk outcome now st).effects) ∧
    (outcome = CheckOutcome.found →
      Effect.otaInstall ∈ (Map.handleOtaInstall authOk outcome now st).effects) := by
  cases outcome <;> simp [Map.handleOtaInstall, otaCheckNow]

/-- Witness for C3's amended theorem at a failed check and at a check that
finds no update. -/
theorem ota_install_behavior_witness :
    (Map.handleOtaInstall true .error 7 {}).resp =
      Response.sent 500 (Map.handleOtaInstall true .error 7 {}).ota.statusLine ∧
    Effect.otaInstall ∉ (Map.handleOtaInstall true .error 7 {}).effects ∧
    Effect.otaContact ∈ (Map.handleOtaInstall true .notFound 7 {}).effects ∧
    (Map.handleOtaInstall true .notFound 7 {}).ota.lastCheckMs = 7 :=
  ⟨((ota_install_behavior true .error 7 {}).2.2.1 rfl).1,
   ((ota_install_behavior true .error 7 {}).2.2.1 rfl).2,
   (ota_install_behavior true .notFound 7 {}).1,
   (ota_install_behavior true .notFound 7 {}).2.1⟩
